import Mathlib

/-!
Verification of the lifecycle-controller specification against the sources
`electron/legendary/games.ts`, `src/backend/toolmanager/ipc_handler.ts` and
`src/frontend/screens/ToolManager/components/ToolItem/index.tsx`.

The TypeScript sources are shallowly embedded: each operation of the
`LegendaryGame` class becomes a Lean function from its inputs (plus the
outcome of the awaited subprocess, which is external) to an explicit state
record and an ordered trace of side-effect events.  JavaScript string
primitives (`split`, `includes`, `replace`, `replaceAll`, `join`) are
re-implemented structurally on character lists so every definition
evaluates inside the kernel.
-/

namespace Heroic

/-! ## JavaScript string primitives -/

/-- Core of `String.prototype.split` with a one-character separator:
splitting an empty list yields one empty field, exactly as in JavaScript. -/
def splitChars (sep : Char) : List Char → List (List Char)
  | [] => [[]]
  | c :: rest =>
    let r := splitChars sep rest
    if c = sep then [] :: r
    else match r with
      | [] => [[c]]
      | h :: t => (c :: h) :: t

/-- JavaScript `str.split(sep)` for a single-character separator. -/
def jsSplit (sep : Char) (s : String) : List String :=
  (splitChars sep s.toList).map (fun l => String.mk l)

/-- Whether `p` is a prefix of `l`, as a boolean on character lists. -/
def charsHasPre (p l : List Char) : Bool :=
  match p, l with
  | [], _ => true
  | _ :: _, [] => false
  | a :: p', b :: l' => a = b && charsHasPre p' l'

/-- Whether `pat` occurs as a contiguous sublist of `l`. -/
def charsHasSub (pat l : List Char) : Bool :=
  match l with
  | [] => charsHasPre pat []
  | _ :: t => charsHasPre pat l || charsHasSub pat t

/-- JavaScript `str.includes(pat)`. -/
def jsIncludes (s pat : String) : Bool := charsHasSub pat.toList s.toList

/-- Core of JavaScript `str.replace(c, rep)` for a one-character pattern:
only the first occurrence is replaced. -/
def replaceFirstChars (c : Char) (rep : List Char) : List Char → List Char
  | [] => []
  | x :: t => if x = c then rep ++ t else x :: replaceFirstChars c rep t

/-- JavaScript `str.replace(c, rep)` for a one-character pattern. -/
def jsReplaceFirst (s : String) (c : Char) (rep : String) : String :=
  String.mk (replaceFirstChars c rep.toList s.toList)

/-- JavaScript `str.replaceAll(c, '')` for a one-character pattern. -/
def jsRemoveAll (s : String) (c : Char) : String :=
  String.mk (s.toList.filter (fun x => x ≠ c))

/-- The single-quote character (code point 39), the pattern of the
`replaceAll("'", '')` calls in `launch`. -/
def squote : Char := Char.ofNat 39

/-- JavaScript `array.join(' ')`. -/
def joinSpace : List String → String
  | [] => ""
  | [x] => x
  | x :: xs => x ++ " " ++ joinSpace xs

/-- Last path segment: `path.split('/').slice(-1)[0]` (games.ts line 169). -/
def lastSegment (p : String) : String := (jsSplit '/' p).getLastD ""

/-! ## Data model

`Status` lists exactly the status strings the source assigns to
`this.state.status`; `'done'` is the at-rest value (the constructor at
games.ts line 42 starts every game at `'done'`). -/

inductive Status where
  | done | installing | updating | uninstalling | repairing | moving | launching | playing
  deriving DecidableEq, Repr

/-- Side-effect events of one operation, in the order the source performs
them.  `setStatus` is a write to `this.state.status`; `setInstallState` and
`changeInstallPath` are the persistent library records; `exec` and
`spawnTool` are subprocess invocations. -/
inductive Ev where
  | setStatus (s : Status)
  | setInstallState (b : Bool)
  | changeInstallPath (appName p : String)
  | exec (cmd : String)
  | spawnTool (bin : String) (args : List String)
  | addShortcut
  | removeShortcut
  | updatePresence
  | disconnectPresence
  | showWindow
  | dxvkInstall (pfx : String)
  deriving DecidableEq, Repr

/-- Outcome of an awaited `execAsync` call.  Modelled from the spec:
`execAsync` (in `utils`, not under src/) is the promisified Process Runner of
spec §4.2; it resolves with the output on a zero exit and rejects on a
non-zero exit, so the outcome is an input to each embedded operation. -/
inductive ExecOutcome where
  | success (out : String)
  | failure (err : String)
  deriving DecidableEq, Repr

/-- Ambient constants imported from `../constants` (not under src/): the
tool binary, the per-game config/log directory, `$HOME` and the platform
flag.  Carried as an explicit context record. -/
structure Ctx where
  legendaryBin : String
  heroicGamesConfigPath : String
  home : String
  isWindows : Bool
  deriving DecidableEq, Repr

/-- State visible to a `LegendaryGame` operation: its own
`this.state.status`, the persistent installed-state and install-path records
of the library, and the ordered event trace. -/
structure MState where
  status : Status
  installedState : Bool
  installPath : String
  events : List Ev
  deriving DecidableEq, Repr

/-- State at rest: status `'done'` (games.ts line 44), nothing installed,
no events yet. -/
def mstate0 : MState := { status := .done, installedState := false, installPath := "", events := [] }

/-- Append a side-effect event to the trace. -/
def emit (e : Ev) (s : MState) : MState := { s with events := s.events ++ [e] }

/-- Embeds `this.state.status = st` (also recorded in the trace). -/
def writeStatus (st : Status) (s : MState) : MState :=
  { s with status := st, events := s.events ++ [.setStatus st] }

/-- Modelled from the spec: `LegendaryLibrary.installState(appName, b)`
("mark persistent installed-state", spec §4.4); the library module is not
under src/.  Writes the persistent installed-state record. -/
def installState (b : Bool) (s : MState) : MState :=
  { s with installedState := b, events := s.events ++ [.setInstallState b] }

/-- Modelled from the spec: `LegendaryLibrary.changeGameInstallPath(appName, p)`
("update the persisted install-path record", spec §4.4); the library module
is not under src/.  Writes the persistent install-path record. -/
def changeGameInstallPath (appName p : String) (s : MState) : MState :=
  { s with installPath := p, events := s.events ++ [.changeInstallPath appName p] }

/-! ## Command construction (games.ts `install`, `update`, `repair`) -/

/-- Embeds `` logPath = `"${heroicGamesConfigPath}${this.appName}.log"` ``
(games.ts lines 328 and 371). -/
def logPath (c : Ctx) (appName : String) : String :=
  "\"" ++ c.heroicGamesConfigPath ++ appName ++ ".log\""

/-- Embeds `` writeLog = isWindows ? `2>&1 > ${logPath}` : `|& tee ${logPath}` ``
(games.ts lines 329 and 372). -/
def writeLog (c : Ctx) (appName : String) : String :=
  if c.isWindows then "2>&1 > " ++ logPath c appName else "|& tee " ++ logPath c appName

/-- Embeds `` workers = maxWorkers === 0 ? '' : `--max-workers ${maxWorkers}` ``
of `install` (games.ts line 323). -/
def installWorkers (mw : Nat) : String :=
  if mw = 0 then "" else "--max-workers " ++ toString mw

/-- Embeds the full install command of games.ts line 330. -/
def installCommand (c : Ctx) (appName path : String) (mw : Nat) : String :=
  c.legendaryBin ++ " install " ++ appName ++ " --base-path " ++ path ++ " "
    ++ installWorkers mw ++ " -y " ++ writeLog c appName

/-- Embeds `` workers = maxWorkers === 0 ? '' : ` --max-workers ${maxWorkers}` ``
of `update` (games.ts line 190; note the leading space inside the template). -/
def updateWorkers (mw : Nat) : String :=
  if mw = 0 then "" else " --max-workers " ++ toString mw

/-- The template string of games.ts line 191 before `.split(' ')`. -/
def updateCommandStr (appName : String) (mw : Nat) : String :=
  "update " ++ appName ++ updateWorkers mw ++ " -y"

/-- Embeds `` command = `update ${this.appName}${workers} -y`.split(' ') ``
(games.ts line 191). -/
def updateCommand (appName : String) (mw : Nat) : List String :=
  jsSplit ' ' (updateCommandStr appName mw)

/-- Embeds `` workers = maxWorkers ? `--max-workers ${maxWorkers}` : '' `` of
`repair` (games.ts line 369); a JavaScript number is truthy exactly when it
is non-zero. -/
def repairWorkers (mw : Nat) : String :=
  if mw ≠ 0 then "--max-workers " ++ toString mw else ""

/-- Embeds the full repair command of games.ts line 374. -/
def repairCommand (c : Ctx) (appName : String) (mw : Nat) : String :=
  c.legendaryBin ++ " repair " ++ appName ++ " " ++ repairWorkers mw ++ " -y "
    ++ writeLog c appName

/-! ## Progress extraction (games.ts `update`, requestUpdateProgress handler) -/

/-- The mutable progress record of games.ts lines 196-200.  A field holds
`none` when the corresponding JavaScript property is `undefined` (an
assignment of an out-of-range array index does not throw, it stores
`undefined`). -/
structure InstallProgress where
  bytes : Option String
  percent : Option String
  eta : Option String
  deriving DecidableEq, Repr

/-- The initial progress record (games.ts lines 196-200). -/
def initialProgress : InstallProgress :=
  { bytes := some "0.00MiB", percent := some "0.00%", eta := some "00:00:00" }

/-- Embeds the stderr data callback of the `requestUpdateProgress` handler
(games.ts lines 202-220).  `appNameMatch` is the guard
`appName === this.appName`; when the guard holds the handler always runs the
two `split('\n')` extractions (the `isVerifying` test at line 203 only
decides whether an extra stdout listener is registered, it does not skip
them).  `.error` models an uncaught TypeError: `` `${data}`.split('\n')[1] ``
is `undefined` when the chunk holds no newline, and calling `.split(' ')` on
`undefined` throws. -/
def stderrProgressStep (appNameMatch : Bool) (p : InstallProgress) (data : String) :
    Except String InstallProgress :=
  let _isVerifying := jsIncludes data "Game needs to be verified"
  if !appNameMatch then .ok p
  else
    match (jsSplit '\n' data).get? 1 with
    | none => .error "TypeError: Cannot read properties of undefined (reading split)"
    | some line1 =>
      let percentToks := jsSplit ' ' ((jsSplit '\n' data).headD "")
      let downloadToks := jsSplit ' ' line1
      let b5 := match downloadToks.get? 5 with
        | some t => if t = "" then "0.00" else t    -- `x || '0.00'`: '' is falsy
        | none => "0.00"                            -- undefined is falsy
      .ok { bytes := some (b5 ++ "MiB"),
            percent := percentToks.get? 4,
            eta := percentToks.get? 10 }

/-- Embeds the stdout data callback registered when a verification line was
seen (games.ts lines 206-211).  `` `${String(data).split(' ')[2]}MiB` ``
interpolates `undefined` as the text `"undefined"` and does not throw, but
`` `${data}`.split(' ')[3].split(')')[0].replace('(', '') `` throws a
TypeError when the chunk has fewer than four space-separated fields. -/
def stdoutVerifyStep (_p : InstallProgress) (data : String) :
    Except String InstallProgress :=
  let toks := jsSplit ' ' data
  let bytes := (match toks.get? 2 with | some t => t | none => "undefined") ++ "MiB"
  match toks.get? 3 with
  | none => .error "TypeError: Cannot read properties of undefined (reading split)"
  | some t3 =>
    let percent := jsReplaceFirst ((jsSplit ')' t3).getD 0 "") '(' ""
    .ok { bytes := some bytes, percent := some percent, eta := some "verifying" }

/-! ## Operations of `LegendaryGame` -/

/-- Result of `install`: the resolved output, or the value produced by
`errorHandler({error, logPath})`.  Modelled from the spec: `errorHandler`
(in `utils`, not under src/) surfaces `Failed` with the captured log path
(spec §4.4 and §6). -/
inductive InstallResult where
  | ok (v : String)
  | failed (logPath : String)
  deriving DecidableEq, Repr

/-- Embeds `install` (games.ts lines 320-346).  `installState(true)` runs
inside the `try` before `execAsync`; the `catch` resets it to `false` and
routes through `errorHandler`.  `addDesktopShortcut()` at line 336 is
fire-and-forget. -/
def install (c : Ctx) (appName path : String) (mw : Nat) (o : ExecOutcome) (s : MState) :
    MState × InstallResult :=
  let s := writeStatus .installing s
  let command := installCommand c appName path mw
  let s := installState true s
  let s := emit (.exec command) s
  match o with
  | .success v =>
    let s := writeStatus .done s
    let s := emit .addShortcut s
    (s, .ok v)
  | .failure _ =>
    let s := installState false s
    let s := writeStatus .done s
    (s, .failed (logPath c appName))

/-- Embeds `uninstall` (games.ts lines 348-358).  `installState(false)` runs
before `execAsync`; the `then` callback (status reset and
`removeDesktopShortcut()`) runs only when the tool resolves, a rejection
propagates to the caller. -/
def uninstall (c : Ctx) (appName : String) (o : ExecOutcome) (s : MState) :
    MState × Except String String :=
  let s := writeStatus .uninstalling s
  let command := c.legendaryBin ++ " uninstall " ++ appName ++ " -y"
  let s := installState false s
  let s := emit (.exec command) s
  match o with
  | .success v =>
    let s := writeStatus .done s
    let s := emit .removeShortcut s
    (s, .ok v)
  | .failure e => (s, .error e)

/-- Embeds `moveInstall` (games.ts lines 166-179).  `ip` is
`info.install.install_path` from the library.  The `then` callback commits
the path record only on a resolved move; `.catch(logError)` swallows a
failure, after which the status reset, `addDesktopShortcut()` and the
return of the amended path run unconditionally. -/
def moveInstall (appName ip np : String) (o : ExecOutcome) (s : MState) :
    MState × String :=
  let s := writeStatus .moving s
  let newInstallPath := np ++ "/" ++ lastSegment ip
  let s := emit (.exec ("mv -f " ++ ip ++ " '" ++ newInstallPath ++ "'")) s
  let s := match o with
    | .success _ => changeGameInstallPath appName newInstallPath s
    | .failure _ => s
  let s := writeStatus .done s
  let s := emit .addShortcut s
  (s, newInstallPath)

/-- Embeds `update` (games.ts lines 181-229).  `_online` is the ambient
connectivity; the source's doc comment (line 183) says "Does NOT check for
online connectivity" and the body never consults it.  The promise resolves
with `'game updated'` when the spawned child exits; the status is never
reset from `'updating'`. -/
def update (c : Ctx) (appName : String) (mw : Nat) (_online : Bool) (s : MState) :
    MState × String :=
  let s := writeStatus .updating s
  let command := updateCommand appName mw
  let s := emit (.spawnTool c.legendaryBin command) s
  (s, "game updated")

/-- Embeds `repair` (games.ts lines 366-381). -/
def repair (c : Ctx) (appName : String) (mw : Nat) (o : ExecOutcome) (s : MState) :
    MState × Except String String :=
  let s := writeStatus .repairing s
  let s := emit (.exec (repairCommand c appName mw)) s
  match o with
  | .success v =>
    let s := writeStatus .done s
    (s, .ok v)
  | .failure e => (s, .error e)

/-! ## `getExtraInfo` (games.ts lines 100-138) -/

/-- Extra store info; `about := none` and `reqs := []` model the empty
object and empty list of the short-circuit value `{about: {}, reqs: []}`. -/
structure ExtraInfo where
  about : Option String
  reqs : List String
  deriving DecidableEq, Repr

/-- The empty `ExtraInfo` returned at games.ts lines 102-105 and 133-136. -/
def emptyExtraInfo : ExtraInfo := { about := none, reqs := [] }

/-- Embeds `getExtraInfo` (games.ts lines 100-138).  `online` is the result
of `isOnline()`; `remote` models the axios request plus field extraction:
`some info` when they succeed, `none` when anything throws (the `catch`
branch). -/
def getExtraInfo (online : Bool) (remote : Option ExtraInfo) : ExtraInfo :=
  if !online then emptyExtraInfo
  else
    match remote with
    | some info => info
    | none => emptyExtraInfo

/-! ## `launch` (games.ts lines 412-552) -/

/-- `wineVersion` from the game settings. -/
structure WineVersion where
  bin : String
  name : String
  deriving DecidableEq, Repr

/-- The game settings destructured at games.ts lines 419-431
(`launcherArgs` defaults to `''`).  `winePfx` is the source's wine prefix
setting. -/
structure GameSettings where
  winePfx : String
  wineVersion : WineVersion
  otherOptions : String
  useGameMode : Bool
  showFps : Bool
  nvidiaPrime : Bool
  launcherArgs : String
  showMangohud : Bool
  audioFix : Bool
  autoInstallDxvk : Bool
  offlineMode : Bool
  deriving DecidableEq, Repr

/-- External observations `launch` makes: the global `discordRPC` setting,
`existsSync(fixedWinePrefix)`, the outcome of `which gamemoderun`
(`some stdout` when it resolves, `none` when the `.catch` fires), and the
outcome of the final launch command. -/
structure LaunchWorld where
  discordRPC : Bool
  winePfxExists : Bool
  whichGameMode : Option String
  execOutcome : ExecOutcome
  deriving DecidableEq, Repr

/-- Embeds `launch` (games.ts lines 412-552).  On Windows the status is
written once (`'launching'`) and never again.  On Linux the `then` callback
of the awaited launch command sets the status to `'playing'` — that callback
runs only after `execAsync` has resolved, i.e. after the game process has
exited — and no later line ever resets it; a rejected launch leaves the
status at `'launching'`. -/
def launch (c : Ctx) (appName : String) (gs : GameSettings) (w : LaunchWorld) (s : MState) :
    MState × Except String String :=
  let s := writeStatus .launching s
  let runOffline := if gs.offlineMode then "--offline" else ""
  let s := if w.discordRPC then emit .updatePresence s else s
  if c.isWindows then
    let command := c.legendaryBin ++ " launch " ++ appName ++ " " ++ runOffline ++ " "
      ++ gs.launcherArgs
    let s := emit (.exec command) s
    match w.execOutcome with
    | .success v => (emit .disconnectPresence s, .ok v)
    | .failure e => (s, .error e)
  else
    let fixedWinePfx := jsReplaceFirst gs.winePfx '~' c.home
    let isProton := jsIncludes gs.wineVersion.name "Proton"
      || jsIncludes gs.wineVersion.name "Steam"
    let pfxArg := if isProton then ""
      else "--wine-prefix '" ++ jsRemoveAll fixedWinePfx squote ++ "'"
    let audio := if gs.audioFix then "PULSE_LATENCY_MSEC=60" else ""
    let fps := if gs.showFps then "DXVK_HUD=fps" else ""
    let other := gs.otherOptions  -- `otherOptions ? otherOptions : ''` is the identity on a string
    let prime := if gs.nvidiaPrime then
        "__NV_PRIME_RENDER_OFFLOAD=1 __GLX_VENDOR_LIBRARY_NAME=nvidia"
      else ""
    let protonEnv := if isProton then
        "STEAM_COMPAT_CLIENT_INSTALL_PATH=" ++ c.home
          ++ "/.steam/steam STEAM_COMPAT_DATA_PATH='"
          ++ jsReplaceFirst (jsRemoveAll gs.winePfx squote) '~' c.home ++ "'"
      else ""
    let mangohud := if gs.showMangohud then "MANGOHUD=1" else ""
    let envVars := joinSpace [audio, fps, other, prime, protonEnv, mangohud]
    let s := if isProton && !w.winePfxExists then
        emit (.exec ("mkdir '" ++ fixedWinePfx ++ "' -p")) s
      else s
    let s := if !isProton && gs.autoInstallDxvk then emit (.dxvkInstall gs.winePfx) s else s
    let wineCommand := if gs.wineVersion.name ≠ "Wine Default" then
        (if isProton then "--no-wine --wrapper \"" ++ gs.wineVersion.bin ++ " run\""
         else "--wine " ++ gs.wineVersion.bin)
      else "--wine " ++ gs.wineVersion.bin
    let s := emit (.exec "which gamemoderun") s
    let gameMode := w.whichGameMode.map (fun out => (jsSplit '\n' out).headD "")
    let runWithGameMode := if gs.useGameMode then
        (match gameMode with | some g => if g = "" then "" else g | none => "")
      else ""
    let command := envVars ++ " " ++ runWithGameMode ++ " " ++ c.legendaryBin ++ " launch "
      ++ appName ++ " " ++ runOffline ++ " " ++ wineCommand ++ " " ++ pfxArg ++ " "
      ++ gs.launcherArgs
    let s := emit (.exec command) s
    match w.execOutcome with
    | .success v =>
      let s := writeStatus .playing s
      let s := emit .showWindow s
      let s := emit .disconnectPresence s
      (s, .ok v)
    | .failure e => (s, .error e)

/-! ## Tool manager IPC handler (ipc_handler.ts lines 14-29) -/

/-- The terminal results `installToolVersion` resolves with; the frontend
(ToolItem/index.tsx lines 80-93) switches on exactly these. -/
inductive ToolResult where
  | success | error | abort
  deriving DecidableEq, Repr

/-- Modelled from the spec: `createAbortController(key)` of
`backend/utils/aborthandler` (not under src/) registers a cancellation
handle for `key` in the process-wide registry (spec §4.1 `register`). -/
def createAbortController (key : String) (reg : List String) : List String :=
  key :: reg

/-- Modelled from the spec: `deleteAbortController(key)` removes the
cancellation handle for `key` from the registry (spec §4.1 `unregister`). -/
def deleteAbortController (key : String) (reg : List String) : List String :=
  reg.filter (fun k => k ≠ key)

/-- Embeds the `installToolVersion` IPC handler (ipc_handler.ts lines
14-29): register the abort handle, await the install to its terminal
`result` (a parameter; progress events go to the window and are not part of
the returned value), then `deleteAbortController(release.version)` runs
before `return result`. -/
def installToolVersionHandler (version : String) (result : ToolResult) (reg : List String) :
    List String × ToolResult :=
  let reg := createAbortController version reg
  let reg := deleteAbortController version reg
  (reg, result)

/-! ## Frontend progress display (ToolItem/index.tsx lines 196-217) -/

/-- Progress info delivered to the frontend. -/
structure ProgressInfo where
  percentage : ℚ
  avgSpeed : ℚ
  eta : ℚ
  deriving DecidableEq, Repr

/-- JavaScript `x % m` for a nonnegative finite `x` and positive `m`. -/
def jsMod (x m : ℚ) : ℚ := x - m * ⌊x / m⌋

/-- The numeric values `getProgressElement` hands to its display
formatters: the `hours`/`minutes`/`seconds` of the ETA, the interpolated
percentage, and the arguments of the two `size(...)` calls.  The `size`
byte formatter (frontend helpers, not under src/) only renders its
argument. -/
structure ProgressDisplay where
  hours : ℤ
  minutes : ℤ
  seconds : ℚ
  percentageValue : ℚ
  bytesValue : ℚ
  avgSpeedValue : ℚ
  deriving DecidableEq, Repr

/-- Embeds `getProgressElement` (ToolItem/index.tsx lines 196-217).  The
displayed byte figure is `size((percentage / 100) * downsize)` (line 215);
real arithmetic is modelled exactly over `ℚ`. -/
def getProgressElement (progress : ProgressInfo) (downsize : ℚ) : ProgressDisplay :=
  let totalSeconds := progress.eta
  let hours : ℤ := ⌊totalSeconds / 3600⌋
  let totalSeconds := jsMod totalSeconds 3600
  let minutes : ℤ := ⌊totalSeconds / 60⌋
  let seconds := jsMod totalSeconds 60
  { hours := hours, minutes := minutes, seconds := seconds,
    percentageValue := progress.percentage,
    bytesValue := progress.percentage / 100 * downsize,
    avgSpeedValue := progress.avgSpeed }

/-! ## Concrete exemplar inputs -/

/-- A concrete Linux context for closed evaluations. -/
def ctx0 : Ctx :=
  { legendaryBin := "legendary"
    heroicGamesConfigPath := "/home/user/.config/heroic/GamesConfig/"
    home := "/home/user"
    isWindows := false }

/-- Concrete default game settings for closed evaluations. -/
def settings0 : GameSettings :=
  { winePfx := "~/.wine"
    wineVersion := { bin := "/usr/bin/wine", name := "Wine Default" }
    otherOptions := ""
    useGameMode := false
    showFps := false
    nvidiaPrime := false
    launcherArgs := ""
    showMangohud := false
    audioFix := false
    autoInstallDxvk := false
    offlineMode := false }

/-- A concrete launch world whose legendary process exits successfully. -/
def world0 : LaunchWorld :=
  { discordRPC := false
    winePfxExists := true
    whichGameMode := none
    execOutcome := .success "" }

/-- Event `a` occurs at a strictly earlier trace position than event `b`. -/
def OccursBefore (a b : Ev) (tr : List Ev) : Prop :=
  ∃ i j, i < j ∧ tr.get? i = some a ∧ tr.get? j = some b

/-! ## Theorems -/

/-- Claim C1, evaluated at the failing input: the progress-extraction path
of `update` is NOT exception-free.  A stderr chunk holding no newline makes
`` `${data}`.split('\n')[1] `` evaluate to `undefined`, and the immediate
`.split(' ')` on it throws a TypeError; likewise the verification stdout
extraction throws on a chunk with fewer than four space-separated fields.
A well-formed two-line chunk, by contrast, yields a snapshot. -/
theorem c1_progress_extraction_throws_on_chunk_without_newline :
    stderrProgressStep true initialProgress "Installing game files"
      = .error "TypeError: Cannot read properties of undefined (reading split)"
    ∧ stdoutVerifyStep initialProgress "a b"
      = .error "TypeError: Cannot read properties of undefined (reading split)"
    ∧ stderrProgressStep true initialProgress
        "a b c d 45.00% f g h i j 00:02:00\nq w e r t 123.45 y"
      = .ok { bytes := some "123.45MiB", percent := some "45.00%", eta := some "00:02:00" } := by
  refine ⟨?_, ?_, ?_⟩ <;> rfl

/-- Claim C2, evaluated at the failing input: after a successful Linux
launch whose subprocess has exited, the status is `'playing'` — written only
once `execAsync` resolved, i.e. after the game exited — and never reverts to
the at-rest `'done'`; `update` likewise leaves the status at `'updating'`
after its child exits. -/
theorem c2_launch_leaves_status_playing_after_exit :
    (launch ctx0 "AppX" settings0 world0 mstate0).1.status = Status.playing
    ∧ (launch ctx0 "AppX" settings0 world0 mstate0).2 = .ok ""
    ∧ Status.playing ≠ Status.done
    ∧ (update ctx0 "AppX" 0 true mstate0).1.status = Status.updating
    ∧ Status.updating ≠ Status.done := by
  refine ⟨by decide, rfl, by decide, by decide, by decide⟩

/-- Claim C3, counterexample: on a failing install the persistent
installed-state does not "remain false" — the trace of a failed install
contains a write of `true` (performed before the tool ran), so the state is
transiently true although the tool never exited zero. -/
theorem c3_install_failure_writes_installed_state_true :
    ((install ctx0 "AppX" "/home/user/Games" 0 (.failure "exit 1") mstate0).1.events.contains
        (Ev.setInstallState true)) = true
    ∧ (install ctx0 "AppX" "/home/user/Games" 0 (.failure "exit 1") mstate0).2
        = .failed (logPath ctx0 "AppX") := by
  refine ⟨?_, ?_⟩ <;> decide

/-- Claim C3 as amended: `install` marks the persistent installed-state
true before invoking the tool; on a zero exit the result is `Success`, the
status returns to done, desktop integration is triggered and the final
installed-state is true; on a non-zero exit the installed-state is reset to
false (final state false), and the result is `Failed` carrying the captured
log path. -/
theorem c3_install_final_state_matches_exit (c : Ctx) (app path : String) (mw : Nat)
    (v e : String) :
    ((install c app path mw (.success v) mstate0).1.installedState = true
      ∧ (install c app path mw (.success v) mstate0).2 = .ok v
      ∧ (install c app path mw (.success v) mstate0).1.status = .done
      ∧ Ev.addShortcut ∈ (install c app path mw (.success v) mstate0).1.events)
    ∧ ((install c app path mw (.failure e) mstate0).1.installedState = false
      ∧ (install c app path mw (.failure e) mstate0).2 = .failed (logPath c app)
      ∧ (install c app path mw (.failure e) mstate0).1.status = .done
      ∧ Ev.addShortcut ∉ (install c app path mw (.failure e) mstate0).1.events
      ∧ OccursBefore (.setInstallState true) (.exec (installCommand c app path mw))
          (install c app path mw (.failure e) mstate0).1.events
      ∧ OccursBefore (.setInstallState true) (.setInstallState false)
          (install c app path mw (.failure e) mstate0).1.events) := by
  refine ⟨⟨rfl, rfl, rfl, ?_⟩, rfl, rfl, rfl, ?_, ⟨1, 2, by omega, rfl, rfl⟩,
    ⟨1, 3, by omega, rfl, rfl⟩⟩
  · simp [install, installState, writeStatus, emit, mstate0]
  · simp [install, installState, writeStatus, emit, mstate0]

/-- Claim C4, counterexample: desktop-integration removal is NOT triggered
regardless of the tool's exit code — on a failing uninstall the
`removeDesktopShortcut()` call (inside the `then` callback) never runs. -/
theorem c4_uninstall_failure_skips_shortcut_removal :
    ((uninstall ctx0 "AppX" (.failure "exit 1") mstate0).1.events.contains
        Ev.removeShortcut) = false
    ∧ (uninstall ctx0 "AppX" (.failure "exit 1") mstate0).1.installedState = false := by
  refine ⟨?_, ?_⟩ <;> decide

/-- Claim C4 as amended: `uninstall` sets the persistent installed-state
false strictly before invoking the tool and never rolls it back to true;
desktop-integration removal is triggered only when the tool exits
successfully — on a failing exit the rejection propagates, removal is
skipped and the status stays `'uninstalling'`. -/
theorem c4_uninstall_clears_state_before_tool (c : Ctx) (app v e : String) :
    (OccursBefore (.setInstallState false)
        (.exec (c.legendaryBin ++ " uninstall " ++ app ++ " -y"))
        (uninstall c app (.success v) mstate0).1.events
      ∧ Ev.removeShortcut ∈ (uninstall c app (.success v) mstate0).1.events
      ∧ Ev.setInstallState true ∉ (uninstall c app (.success v) mstate0).1.events
      ∧ (uninstall c app (.success v) mstate0).1.installedState = false)
    ∧ (OccursBefore (.setInstallState false)
        (.exec (c.legendaryBin ++ " uninstall " ++ app ++ " -y"))
        (uninstall c app (.failure e) mstate0).1.events
      ∧ Ev.removeShortcut ∉ (uninstall c app (.failure e) mstate0).1.events
      ∧ Ev.setInstallState true ∉ (uninstall c app (.failure e) mstate0).1.events
      ∧ (uninstall c app (.failure e) mstate0).1.installedState = false
      ∧ (uninstall c app (.failure e) mstate0).1.status = .uninstalling) := by
  refine ⟨⟨⟨1, 2, by omega, rfl, rfl⟩, ?_, ?_, rfl⟩,
    ⟨1, 2, by omega, rfl, rfl⟩, ?_, ?_, rfl, rfl⟩ <;>
    simp [uninstall, installState, writeStatus, emit, mstate0]

/-- Claim C5: `moveInstall` amends the destination by appending the last
segment of the current install path, commits the persisted install-path
record only after the move command has succeeded (on success the `exec` of
`mv` precedes the record write; the final record is the destination), and on
a failed move writes no record at all, leaving the persisted path
untouched. -/
theorem c5_moveInstall_commits_record_only_after_move (app ip np v e : String) (st : MState) :
    ((moveInstall app ip np (.success v) st).2 = np ++ "/" ++ lastSegment ip
      ∧ (moveInstall app ip np (.failure e) st).2 = np ++ "/" ++ lastSegment ip)
    ∧ (OccursBefore
        (.exec ("mv -f " ++ ip ++ " '" ++ (np ++ "/" ++ lastSegment ip) ++ "'"))
        (.changeInstallPath app (np ++ "/" ++ lastSegment ip))
        (moveInstall app ip np (.success v) mstate0).1.events
      ∧ (moveInstall app ip np (.success v) st).1.installPath = np ++ "/" ++ lastSegment ip)
    ∧ ((∀ a q, Ev.changeInstallPath a q ∉ (moveInstall app ip np (.failure e) mstate0).1.events)
      ∧ (moveInstall app ip np (.failure e) st).1.installPath = st.installPath) := by
  refine ⟨⟨rfl, rfl⟩, ⟨⟨1, 2, by omega, rfl, rfl⟩, rfl⟩, ?_, rfl⟩
  intro a q
  simp [moveInstall, changeGameInstallPath, writeStatus, emit, mstate0]

/-- Claim C6: the `installToolVersion` IPC handler removes the cancellation
handle registered for the version key before returning, for every terminal
result (`success`, `error` or `abort`), and returns that result unchanged. -/
theorem c6_handler_removes_abort_handle_before_return (version : String)
    (result : ToolResult) (reg : List String) :
    version ∉ (installToolVersionHandler version result reg).1
    ∧ (installToolVersionHandler version result reg).2 = result := by
  refine ⟨?_, rfl⟩
  simp [installToolVersionHandler, createAbortController, deleteAbortController]

/-- Claim C7: with `maxWorkers = 0` the constructed install, update and
repair command lines coincide with flag-free templates (no `--max-workers`
fragment is inserted, as the concrete token evaluations confirm), while any
non-zero value `k + 1` puts `--max-workers` followed by that value into the
command line. -/
theorem c7_maxworkers_zero_omits_flag (c : Ctx) (app path : String) (k : Nat) :
    (installCommand c app path 0
        = c.legendaryBin ++ " install " ++ app ++ " --base-path " ++ path ++ " " ++ " -y "
          ++ writeLog c app
      ∧ updateCommandStr app 0 = "update " ++ app ++ " -y"
      ∧ repairCommand c app 0
        = c.legendaryBin ++ " repair " ++ app ++ " " ++ " -y " ++ writeLog c app)
    ∧ ((∃ pre post, installCommand c app path (k + 1)
          = pre ++ ("--max-workers " ++ toString (k + 1)) ++ post)
      ∧ (∃ pre post, updateCommandStr app (k + 1)
          = pre ++ (" --max-workers " ++ toString (k + 1)) ++ post)
      ∧ (∃ pre post, repairCommand c app (k + 1)
          = pre ++ ("--max-workers " ++ toString (k + 1)) ++ post))
    ∧ (((jsSplit ' ' (installCommand ctx0 "AppX" "/home/user/Games" 0)).contains
          "--max-workers") = false
      ∧ ((updateCommand "AppX" 0).contains "--max-workers") = false
      ∧ ((jsSplit ' ' (repairCommand ctx0 "AppX" 0)).contains "--max-workers") = false
      ∧ ((updateCommand "AppX" 7).contains "--max-workers") = true
      ∧ ((jsSplit ' ' (installCommand ctx0 "AppX" "/home/user/Games" 7)).contains
          "--max-workers") = true
      ∧ ((jsSplit ' ' (repairCommand ctx0 "AppX" 7)).contains "--max-workers") = true) := by
  refine ⟨⟨?_, ?_, ?_⟩,
    ⟨⟨c.legendaryBin ++ " install " ++ app ++ " --base-path " ++ path ++ " ",
      " -y " ++ writeLog c app, ?_⟩,
     ⟨"update " ++ app, " -y", ?_⟩,
     ⟨c.legendaryBin ++ " repair " ++ app ++ " ", " -y " ++ writeLog c app, ?_⟩⟩,
    ?_, ?_, ?_, ?_, ?_, ?_⟩
  · simp [installCommand, installWorkers]
  · simp [updateCommandStr, updateWorkers]
  · simp [repairCommand, repairWorkers]
  · simp [installCommand, installWorkers, String.append_assoc]
  · simp [updateCommandStr, updateWorkers, String.append_assoc]
  · simp [repairCommand, repairWorkers, String.append_assoc]
  · decide
  · decide
  · decide
  · decide
  · decide
  · decide

/-- Claim C8, counterexample: `update` is a remote-dependent operation, yet
even with the network unavailable it spawns the external tool instead of
short-circuiting to a no-op (connectivity is not consulted anywhere in its
body; its own doc comment says "Does NOT check for online connectivity"). -/
theorem c8_update_spawns_tool_when_offline :
    ((update ctx0 "AppX" 0 false mstate0).1.events.contains
        (Ev.spawnTool "legendary" ["update", "AppX", "-y"])) = true
    ∧ (update ctx0 "AppX" 0 false mstate0).2 = "game updated" := by
  refine ⟨?_, ?_⟩ <;> decide

/-- Claim C8 as amended: `getExtraInfo` checks network availability first
and short-circuits to the empty `ExtraInfo` `{about: {}, reqs: []}` when
offline, but `update` performs no such check — its behaviour is independent
of connectivity and it spawns the tool even when offline. -/
theorem c8_only_getExtraInfo_short_circuits_offline (c : Ctx) (app : String) (mw : Nat)
    (r : Option ExtraInfo) (b : Bool) (s : MState) :
    getExtraInfo false r = emptyExtraInfo
    ∧ update c app mw b s = update c app mw true s
    ∧ Ev.spawnTool c.legendaryBin (updateCommand app mw) ∈ (update c app mw false s).1.events := by
  refine ⟨rfl, rfl, ?_⟩
  simp [update, writeStatus, emit]

/-- Claim C9: the byte figure `getProgressElement` hands to the size
formatter equals `percentage / 100 * downsize` exactly (so the displayed
value agrees with it up to the formatter's own rounding), as in the
concrete evaluation 50% of 3000 bytes ↦ 1500. -/
theorem c9_progress_bytes_equals_percentage_share (p : ProgressInfo) (d : ℚ) :
    (getProgressElement p d).bytesValue = p.percentage / 100 * d
    ∧ (getProgressElement p d).percentageValue = p.percentage
    ∧ (getProgressElement ⟨50, 0, 0⟩ 3000).bytesValue = 1500 := by
  refine ⟨rfl, rfl, ?_⟩
  norm_num [getProgressElement]

/-- Claim C10: `moveInstall` returns the amended destination path and ends
with status `'done'` whether or not the `mv` command succeeded — a failure
is swallowed by `.catch(logError)`, desktop integration is still re-created,
and the caller cannot tell the two outcomes apart from the returned path or
the final status. -/
theorem c10_moveInstall_result_independent_of_outcome (app ip np v e : String) (st : MState) :
    (moveInstall app ip np (.success v) st).2 = (moveInstall app ip np (.failure e) st).2
    ∧ (moveInstall app ip np (.failure e) st).2 = np ++ "/" ++ lastSegment ip
    ∧ (moveInstall app ip np (.success v) st).1.status = .done
    ∧ (moveInstall app ip np (.failure e) st).1.status = .done
    ∧ Ev.addShortcut ∈ (moveInstall app ip np (.failure e) mstate0).1.events := by
  refine ⟨rfl, rfl, rfl, rfl, ?_⟩
  simp [moveInstall, writeStatus, emit, mstate0]

end Heroic
